import Mathlib

/-!
Verification of the Instaloader downloader microservice (`main.py`).

The Python source is shallowly embedded below:

* `shortcode_from_url` mirrors the extractor (query strip, split on `/`,
  drop empty segments, take the last one; an empty result raises
  `IndexError`, modelled as `Except.error PyErr.indexError`).
* `get_post_with_retry` mirrors the retry loop.  The upstream call
  `Post.from_shortcode(L.context, shortcode)` is an external collaborator
  and is modelled as an oracle `String → Nat → UpstreamResult` giving the
  outcome of each successive call for a shortcode.  The returned `Trace`
  records how many upstream calls were made and the list of sleep
  durations, in order.
* `post_info` and `download_post` mirror the two POST endpoints; the
  filesystem is a list of paths (a path is a list of components), and
  `L.download_post` is modelled by the environment field `downloadedNames`
  (the filenames it writes into the target directory).
* `health` mirrors the GET /health handler.  `L.test_login()` belongs to
  the external instaloader library; per the spec's Session Context
  contract it returns an optional identity string, modelled as an
  `Option String` value whose Python truthiness is `truthyStrOpt`.
-/

/-- Python exceptions that escape the handlers unmodelled elsewhere. -/
inductive PyErr where
  | indexError
  deriving DecidableEq, Repr

/-- Python `str.split(sep)` for a single-character separator:
splits on every occurrence, keeps empty pieces, and maps `""` to `[""]`. -/
def splitOnChar (c : Char) : List Char → List (List Char)
  | [] => [[]]
  | a :: rest =>
    let r := splitOnChar c rest
    if a == c then [] :: r
    else
      match r with
      | [] => [[a]]
      | h :: t => (a :: h) :: t

/-- Nonempty pieces of a `/`-split: `[p for p in s.split("/") if p]`. -/
def partsOf (l : List Char) : List (List Char) :=
  (splitOnChar '/' l).filter (fun s => !s.isEmpty)

/-- Embeds `shortcode_from_url` (main.py lines 45-55):
`url.split("?")[0]`, then the last nonempty `/`-segment; indexing an
empty list raises `IndexError`. -/
def shortcode_from_url (url : String) : Except PyErr String :=
  let stripped := (splitOnChar '?' url.data).headD []
  match (partsOf stripped).getLast? with
  | some s => .ok (String.mk s)
  | none => .error .indexError

/-- Does `hay` start with `needle` (character lists)? -/
def charsStartWith : List Char → List Char → Bool
  | [], _ => true
  | _ :: _, [] => false
  | a :: as, b :: bs => a == b && charsStartWith as bs

/-- Does `needle` occur contiguously in `hay` (character lists)? -/
def charsContain (needle : List Char) : List Char → Bool
  | [] => needle.isEmpty
  | b :: bs => charsStartWith needle (b :: bs) || charsContain needle bs

/-- Python `needle in hay` for strings. -/
def pyInStr (needle hay : String) : Bool :=
  charsContain needle.data hay.data

/-- The throttle marker tested for in `get_post_with_retry`. -/
def throttlePhrase : String := "Please wait a few minutes before you try again"

/-- Detail string of the HTTP 500 raised when the session is not loaded. -/
def sessionDetail : String :=
  "Sessão do Instagram não carregada. Verifique o arquivo de sessão."

/-- Detail string of the HTTP 429 raised after retries are exhausted. -/
def rateDetail : String :=
  "Instagram aplicou rate limit. Tente novamente mais tarde."

/-- Detail string of the HTTP 404 raised on a not-found signal. -/
def notFoundDetail : String := "Post não encontrado"

/-- Detail string of the HTTP 500 raised when no media file was found. -/
def noMediaDetail : String := "Nenhum arquivo de mídia foi baixado do post."

/-- Post metadata as used by `post_info` (fields read from the
instaloader `Post` object; `date_utc` is kept as its ISO string). -/
structure Post where
  owner_username : String
  caption : Option String
  is_video : Bool
  date_utc : Option String
  likes : Nat
  comments : Nat
  mediacount : Nat
  deriving DecidableEq, Repr

/-- Outcome of one call to `Post.from_shortcode` (the upstream oracle):
success, a `BadResponseException` with a message, a
`QueryReturnedNotFoundException`, or any other exception. -/
inductive UpstreamResult where
  | ok (p : Post)
  | badResponse (msg : String)
  | notFound (msg : String)
  | otherExc (msg : String)
  deriving Repr

/-- Outcome of `get_post_with_retry`: the returned post, a raised
`HTTPException(status, detail)` with its `__cause__` message, a re-raised
`BadResponseException` or any other propagated exception. -/
inductive FetchResult where
  | success (p : Post)
  | httpExc (status : Nat) (detail : String) (cause : Option String)
  | badResponsePropagated (msg : String)
  | uncaughtExc (msg : String)
  deriving DecidableEq, Repr

/-- Observable side effects of the retry loop: the number of upstream
calls made and the sleep durations in order. -/
structure Trace where
  calls : Nat
  sleeps : List Nat
  deriving DecidableEq, Repr

/-- One iteration of the `for attempt in range(max_retries)` loop of
`get_post_with_retry` (main.py lines 65-86).  `remaining` counts the
iterations left, `attempt` is the current 0-based index, `lastErr` the
Python `last_err` variable. -/
def retryGo (sc : String) (up : String → Nat → UpstreamResult) :
    Nat → Nat → Option String → Trace → FetchResult × Trace
  | 0, _, lastErr, tr => (.httpExc 429 rateDetail lastErr, tr)
  | remaining + 1, attempt, _, tr =>
    match up sc attempt with
    | .ok p => (.success p, ⟨tr.calls + 1, tr.sleeps⟩)
    | .badResponse msg =>
      if pyInStr throttlePhrase msg then
        retryGo sc up remaining (attempt + 1) (some msg)
          ⟨tr.calls + 1, tr.sleeps ++ [60 * (attempt + 1)]⟩
      else (.badResponsePropagated msg, ⟨tr.calls + 1, tr.sleeps⟩)
    | .notFound msg =>
      (.httpExc 404 notFoundDetail (some msg), ⟨tr.calls + 1, tr.sleeps⟩)
    | .otherExc msg => (.uncaughtExc msg, ⟨tr.calls + 1, tr.sleeps⟩)

/-- Embeds `get_post_with_retry` (main.py lines 58-86). -/
def get_post_with_retry (sc : String) (up : String → Nat → UpstreamResult)
    (maxRetries : Nat) : FetchResult × Trace :=
  retryGo sc up maxRetries 0 none ⟨0, []⟩

/-- Python truthiness of the `Optional[str]` returned by `L.test_login()`:
`None` and the empty string are falsy. -/
def truthyStrOpt : Option String → Bool
  | none => false
  | some s => !s.isEmpty

/-- Environment of one request: the identity returned by the external
`L.test_login()` (per the spec's Session Context contract it yields an
optional identity string), the upstream oracle for
`Post.from_shortcode`, the filenames `L.download_post` writes into the
target directory, and whether `L.download_post` raises instead. -/
structure Env where
  identity : Option String
  upstream : String → Nat → UpstreamResult
  downloadedNames : List String
  downloadRaises : Option String

/-- Body returned by the /health handler (main.py lines 89-91). -/
structure HealthBody where
  status : String
  instagram_user : Option String
  deriving DecidableEq, Repr

/-- Embeds the GET /health handler: returns 200 with its status body for
every session state. -/
def health (identity : Option String) : Nat × HealthBody :=
  (200, ⟨"ok", identity⟩)

/-- Response body of a successful /post_info call (main.py lines 117-126). -/
structure PostInfoBody where
  shortcode : String
  owner_username : String
  caption : Option String
  is_video : Bool
  date_utc : Option String
  likes : Nat
  comments : Nat
  slides_count : Nat
  deriving DecidableEq, Repr

/-- Outcome of the /post_info handler: a 200 body, a raised
`HTTPException`, or a Python exception that escapes the handler
uncaught (the framework turns those into a generic 500, not a mapped
status). -/
inductive PIResult where
  | ok (body : PostInfoBody)
  | httpExc (status : Nat) (detail : String)
  | uncaught (e : PyErr)
  deriving DecidableEq, Repr

/-- The HTTP status of a handler outcome, when the handler raised a
mapped `HTTPException`; `none` for success or an uncaught exception. -/
def piStatus : PIResult → Option Nat
  | .httpExc s _ => some s
  | _ => none

/-- Embeds the POST /post_info handler (main.py lines 94-126). -/
def post_info (env : Env) (url : String) : PIResult × Trace :=
  if truthyStrOpt env.identity = false then
    (.httpExc 500 sessionDetail, ⟨0, []⟩)
  else
    match shortcode_from_url url with
    | .error e => (.uncaught e, ⟨0, []⟩)
    | .ok sc =>
      match get_post_with_retry sc env.upstream 3 with
      | (.success p, tr) =>
        (.ok ⟨sc, p.owner_username, p.caption, p.is_video, p.date_utc,
              p.likes, p.comments, p.mediacount⟩, tr)
      | (.httpExc s d _, tr) => (.httpExc s d, tr)
      | (.badResponsePropagated m, tr) =>
        (.httpExc 500 ("Erro ao acessar o post: " ++ m), tr)
      | (.uncaughtExc m, tr) =>
        (.httpExc 500 ("Erro ao acessar o post: " ++ m), tr)

/-- A filesystem path, as its list of components (`/tmp/x` is
`["tmp", "x"]`). -/
abbrev FsPath := List String

/-- The set of existing paths, in creation order. -/
abbrev FS := List FsPath

/-- Is `p` the path `t` itself or a path below it?  (`shutil.rmtree(t)`
removes exactly these.) -/
def pathUnder (t p : FsPath) : Bool := t.isPrefixOf p

/-- Embeds `shutil.rmtree`: removes a path and everything under it. -/
def rmtree (t : FsPath) (fs : FS) : FS :=
  fs.filter (fun p => !pathUnder t p)

/-- Is `p` a direct child of directory `dir`? -/
def isDirectChild (dir p : FsPath) : Bool :=
  pathUnder dir p && p.length == dir.length + 1

/-- Embeds `Path.iterdir`: the direct children of `dir` present in `fs`. -/
def iterdir (fs : FS) (dir : FsPath) : List FsPath :=
  fs.filter (isDirectChild dir)

/-- Final component of a path (`Path.name`). -/
def lastComponent (p : FsPath) : String := (p.getLast?).getD ""

/-- Embeds `PurePath.suffix`: the extension of the final component,
including the dot; empty when there is no dot, the dot is the last
character, or the dot is the first character. -/
def pathSuffix (name : String) : String :=
  let cs := name.data
  let revAfter := cs.reverse.takeWhile (fun c => !(c == '.'))
  if revAfter.length == cs.length then ""
  else if revAfter.length == 0 then ""
  else if cs.length - 1 - revAfter.length == 0 then ""
  else String.mk ('.' :: revAfter.reverse)

/-- ASCII lower-casing of one character, as Python `str.lower` acts on
the ASCII range. -/
def lowerChar (c : Char) : Char :=
  if 'A' ≤ c && c ≤ 'Z' then Char.ofNat (c.toNat + 32) else c

/-- Python `str.lower()` (ASCII range, which covers the extensions). -/
def strLower (s : String) : String := String.mk (s.data.map lowerChar)

/-- The media-extension allow-list test of main.py line 162:
`f.suffix.lower() in [".jpg", ".jpeg", ".png", ".webp", ".mp4"]`. -/
def suffixAllowed (name : String) : Bool :=
  [".jpg", ".jpeg", ".png", ".webp", ".mp4"].contains (strLower (pathSuffix name))

/-- Is the file at path `p` a media file, per the allow-list? -/
def isMediaFile (p : FsPath) : Bool := suffixAllowed (lastComponent p)

/-- The MIME chain of main.py lines 177-184, applied to a filename.
Note the source has no `.webp` branch: webp files fall through to
`application/octet-stream`. -/
def mimeForFile (name : String) : String :=
  let s := strLower (pathSuffix name)
  if s == ".mp4" then "video/mp4"
  else if s == ".jpg" || s == ".jpeg" then "image/jpeg"
  else if s == ".png" then "image/png"
  else "application/octet-stream"

/-- Bytes carried by a download response: the bytes of a single file, or
the archive `shutil.make_archive` builds from the target directory (its
entries recorded at archive time). -/
inductive RespContent where
  | fileBytes (path : FsPath)
  | zipArchive (dir : FsPath) (entries : List FsPath)
  deriving DecidableEq, Repr

/-- Outcome of the /download_post handler. -/
inductive DPResult where
  | response (content : RespContent) (mime : String) (filename : String)
  | httpExc (status : Nat) (detail : String)
  | uncaught (e : PyErr)
  deriving DecidableEq, Repr

/-- The `try:` block of `download_post` (main.py lines 149-214), after
the temporary directory exists.  Returns the outcome, the filesystem
before the `finally:` cleanup, and the retry trace. -/
def downloadBody (env : Env) (shortcode : String) (tmpDir : FsPath)
    (fs : FS) : DPResult × FS × Trace :=
  match get_post_with_retry shortcode env.upstream 3 with
  | (.httpExc s d _, tr) => (.httpExc s d, fs, tr)
  | (.badResponsePropagated m, tr) =>
    (.httpExc 500 ("Erro ao baixar o post: " ++ m), fs, tr)
  | (.uncaughtExc m, tr) =>
    (.httpExc 500 ("Erro ao baixar o post: " ++ m), fs, tr)
  | (.success _, tr) =>
    let targetDir := tmpDir ++ [shortcode]
    let fs1 := fs ++ [targetDir]
    match env.downloadRaises with
    | some m => (.httpExc 500 ("Erro ao baixar o post: " ++ m), fs1, tr)
    | none =>
      let fs2 := fs1 ++ env.downloadedNames.map (fun n => targetDir ++ [n])
      let media := (iterdir fs2 targetDir).filter isMediaFile
      match media with
      | [] => (.httpExc 500 noMediaDetail, fs2, tr)
      | [f] =>
        (.response (.fileBytes f) (mimeForFile (lastComponent f))
          (lastComponent f), fs2, tr)
      | _ :: _ :: _ =>
        let zipPath := tmpDir ++ [shortcode ++ ".zip"]
        let fs3 := fs2 ++ [zipPath]
        (.response (.zipArchive targetDir (iterdir fs2 targetDir))
          "application/zip" (shortcode ++ ".zip"), fs3, tr)

/-- Embeds the POST /download_post handler (main.py lines 129-220):
session gate, shortcode extraction (outside any `try`), temporary
directory creation, the `try:` body, and the unconditional
`finally: shutil.rmtree(tmp_dir)`. -/
def download_post (env : Env) (uuid : String) (url : String) (fs0 : FS) :
    DPResult × FS × Trace :=
  if truthyStrOpt env.identity = false then
    (.httpExc 500 sessionDetail, fs0, ⟨0, []⟩)
  else
    match shortcode_from_url url with
    | .error e => (.uncaught e, fs0, ⟨0, []⟩)
    | .ok shortcode =>
      let tmpDir : FsPath := ["tmp", "ig-" ++ uuid]
      let fs1 := fs0 ++ [tmpDir]
      match downloadBody env shortcode tmpDir fs1 with
      | (res, fs2, tr) => (res, rmtree tmpDir fs2, tr)

/-- A concrete post used in closed witness statements. -/
def dummyPost : Post := ⟨"owner", none, false, none, 0, 0, 1⟩

/-- Structure eta for strings. -/
theorem string_mk_data (s : String) : String.mk s.data = s := rfl

/-- The splitter never returns an empty list of pieces. -/
theorem splitOnChar_ne_nil (c : Char) (l : List Char) : splitOnChar c l ≠ [] := by
  induction l with
  | nil => simp [splitOnChar]
  | cons a rest ih =>
    simp only [splitOnChar]
    split
    · simp
    · cases h : splitOnChar c rest with
      | nil => simp
      | cons x xs => simp

/-- The first piece of a split is the prefix before the first separator. -/
theorem headD_splitOnChar (c : Char) (l : List Char) :
    (splitOnChar c l).headD [] = l.takeWhile (fun a => !(a == c)) := by
  induction l with
  | nil => rfl
  | cons a rest ih =>
    cases h : a == c with
    | true => simp [splitOnChar, h, List.takeWhile_cons]
    | false =>
      cases hr : splitOnChar c rest with
      | nil => exact absurd hr (splitOnChar_ne_nil c rest)
      | cons x xs =>
        have ih' : x = rest.takeWhile (fun a => !(a == c)) := by
          rw [hr] at ih
          simpa using ih
        simp [splitOnChar, h, hr, List.takeWhile_cons, ih']

/-- A predicate true on all of `l` takes all of `l`. -/
theorem takeWhile_all (p : Char → Bool) (l : List Char)
    (h : ∀ a ∈ l, p a = true) : l.takeWhile p = l := by
  induction l with
  | nil => rfl
  | cons a rest ih =>
    simp [List.takeWhile_cons, h a (by simp),
      ih (fun b hb => h b (by simp [hb]))]

/-- `takeWhile` passes through a block on which the predicate holds. -/
theorem takeWhile_append_stop (p : Char → Bool) (l₁ l₂ : List Char)
    (h : ∀ a ∈ l₁, p a = true) :
    (l₁ ++ l₂).takeWhile p = l₁ ++ l₂.takeWhile p := by
  induction l₁ with
  | nil => rfl
  | cons a rest ih =>
    simp [List.takeWhile_cons, h a (by simp),
      ih (fun b hb => h b (by simp [hb]))]

/-- Splitting a separator-free list yields that single piece. -/
theorem splitOnChar_no_sep (c : Char) (xs : List Char) (h : c ∉ xs) :
    splitOnChar c xs = [xs] := by
  induction xs with
  | nil => rfl
  | cons a rest ih =>
    have ha : (a == c) = false := by
      simp only [beq_eq_false_iff_ne]
      exact fun e => h (e ▸ List.mem_cons_self a rest)
    have hrest : splitOnChar c rest = [rest] :=
      ih (fun hc => h (List.mem_cons_of_mem a hc))
    simp [splitOnChar, ha, hrest]

/-- Splitting at the first separator after a separator-free block. -/
theorem splitOnChar_append_sep (c : Char) (xs ys : List Char) (h : c ∉ xs) :
    splitOnChar c (xs ++ c :: ys) = xs :: splitOnChar c ys := by
  induction xs with
  | nil => simp [splitOnChar]
  | cons a rest ih =>
    have ha : (a == c) = false := by
      simp only [beq_eq_false_iff_ne]
      exact fun e => h (e ▸ List.mem_cons_self a rest)
    have hrest := ih (fun hc => h (List.mem_cons_of_mem a hc))
    cases hsp : splitOnChar c (rest ++ c :: ys) with
    | nil => exact absurd hsp (splitOnChar_ne_nil c _)
    | cons x t =>
      rw [hsp] at hrest
      simp only [List.cons.injEq] at hrest
      simp [List.cons_append, splitOnChar, ha, hsp, hrest.1, hrest.2]

/-- Nonempty segments of the empty list: none. -/
theorem partsOf_nil : partsOf [] = [] := rfl

/-- A leading separator contributes no nonempty segment. -/
theorem partsOf_cons_sep (ys : List Char) : partsOf ('/' :: ys) = partsOf ys := by
  have h := splitOnChar_append_sep '/' [] ys (by simp)
  simp only [List.nil_append] at h
  simp [partsOf, h]

/-- A nonempty separator-free block is one segment. -/
theorem partsOf_seg (xs ys : List Char) (hne : xs ≠ []) (h : '/' ∉ xs) :
    partsOf (xs ++ '/' :: ys) = xs :: partsOf ys := by
  have he : xs.isEmpty = false := by
    cases xs with
    | nil => exact absurd rfl hne
    | cons a l => rfl
  simp [partsOf, splitOnChar_append_sep '/' xs ys h, he]

/-- A list made only of separators has no nonempty segment. -/
theorem partsOf_all_sep (l : List Char) (h : ∀ a ∈ l, a = '/') :
    partsOf l = [] := by
  induction l with
  | nil => rfl
  | cons a rest ih =>
    have ha : a = '/' := h a (by simp)
    subst ha
    rw [partsOf_cons_sep]
    exact ih (fun b hb => h b (by simp [hb]))

/-- Extraction of a URL whose text contains no `?`: the last nonempty
`/`-segment of the whole string. -/
theorem shortcode_from_url_no_query (u : String)
    (hq : ∀ a ∈ u.data, (!(a == '?')) = true) :
    shortcode_from_url u =
      match (partsOf u.data).getLast? with
      | some s => .ok (String.mk s)
      | none => .error .indexError := by
  have hstrip : (splitOnChar '?' u.data).headD [] = u.data := by
    rw [headD_splitOnChar]
    exact takeWhile_all _ _ hq
  show (match (partsOf ((splitOnChar '?' u.data).headD [])).getLast? with
    | some s => Except.ok (String.mk s)
    | none => Except.error PyErr.indexError) = _
  rw [hstrip]

/-- Extraction of a URL with a query string: only the part before the
first `?` matters. -/
theorem shortcode_from_url_query_split (u : String) (clean rest : List Char)
    (hdata : u.data = clean ++ '?' :: rest)
    (hq : ∀ a ∈ clean, (!(a == '?')) = true) :
    shortcode_from_url u =
      match (partsOf clean).getLast? with
      | some s => .ok (String.mk s)
      | none => .error .indexError := by
  have hstrip : (splitOnChar '?' u.data).headD [] = clean := by
    rw [headD_splitOnChar, hdata, takeWhile_append_stop _ _ _ hq]
    simp [List.takeWhile_cons]
  show (match (partsOf ((splitOnChar '?' u.data).headD [])).getLast? with
    | some s => Except.ok (String.mk s)
    | none => Except.error PyErr.indexError) = _
  rw [hstrip]

/-- Nothing survives `rmtree t` at or below `t`. -/
theorem mem_rmtree_not_under (t : FsPath) (fs : FS) :
    ∀ p ∈ rmtree t fs, pathUnder t p = false := by
  intro p hp
  simp only [rmtree, List.mem_filter] at hp
  simpa using hp.2

/-- A path extended by one component is a direct child of the directory. -/
theorem isDirectChild_append_singleton (d : FsPath) (n : String) :
    isDirectChild d (d ++ [n]) = true := by
  simp [isDirectChild, pathUnder, List.isPrefixOf_iff_prefix]

example : shortcode_from_url "https://www.instagram.com/p/XXXX/" = .ok "XXXX" := rfl
example : shortcode_from_url "https://www.instagram.com/reel/AB/?utm_source=x" = .ok "AB" := rfl
example : shortcode_from_url "" = .error .indexError := rfl
example : shortcode_from_url "https://www.instagram.com/p/" = .ok "p" := rfl
example : pyInStr throttlePhrase "x Please wait a few minutes before you try again y" = true := by decide
example : pyInStr throttlePhrase "other error" = false := by decide
example : pathSuffix "media.mp4" = ".mp4" := by decide
example : pathSuffix ".bashrc" = "" := by decide
example : pathSuffix "a." = "" := by decide
example : mimeForFile "a.webp" = "application/octet-stream" := by decide

/-- C1: for every shortcode, the fetch-with-retry loop classifies
upstream failures three ways: a not-found signal on the first call fails
immediately with HTTP 404 after exactly one upstream call and no sleep;
three throttled attempts fail with HTTP 429 carrying the last upstream
message as cause, after three calls and three backoff sleeps; a
`BadResponseException` without the throttle phrase, or any other
exception, propagates after exactly one call with no retry and no
sleep. -/
theorem c1_retry_failure_classification
    (sc : String) (up : String → Nat → UpstreamResult) :
    (∀ m, up sc 0 = .notFound m →
      get_post_with_retry sc up 3 =
        (.httpExc 404 notFoundDetail (some m), ⟨1, []⟩))
    ∧ (∀ f : Nat → String,
      (∀ i, i < 3 → up sc i = .badResponse (f i)
        ∧ pyInStr throttlePhrase (f i) = true) →
      get_post_with_retry sc up 3 =
        (.httpExc 429 rateDetail (some (f 2)), ⟨3, [60 * 1, 60 * 2, 60 * 3]⟩))
    ∧ (∀ m, up sc 0 = .badResponse m → pyInStr throttlePhrase m = false →
      get_post_with_retry sc up 3 = (.badResponsePropagated m, ⟨1, []⟩))
    ∧ (∀ m, up sc 0 = .otherExc m →
      get_post_with_retry sc up 3 = (.uncaughtExc m, ⟨1, []⟩)) := by
  refine ⟨?_, ?_, ?_, ?_⟩
  · intro m h
    simp [get_post_with_retry, retryGo, h]
  · intro f h
    have h0 := h 0 (by omega)
    have h1 := h 1 (by omega)
    have h2 := h 2 (by omega)
    simp [get_post_with_retry, retryGo, h0.1, h0.2, h1.1, h1.2, h2.1, h2.2]
  · intro m h hm
    simp [get_post_with_retry, retryGo, h, hm]
  · intro m h
    simp [get_post_with_retry, retryGo, h]

/-- Closed instance of the C1 classification: an upstream that always
reports not-found fails at once with 404, and one that always throttles
fails with 429 after three calls and three sleeps. -/
theorem c1_retry_failure_classification_witness :
    get_post_with_retry "SC" (fun _ _ => .notFound "gone") 3 =
      (.httpExc 404 notFoundDetail (some "gone"), ⟨1, []⟩)
    ∧ get_post_with_retry "SC" (fun _ _ => .badResponse throttlePhrase) 3 =
      (.httpExc 429 rateDetail (some throttlePhrase),
        ⟨3, [60 * 1, 60 * 2, 60 * 3]⟩) := by
  constructor
  · exact (c1_retry_failure_classification "SC" _).1 "gone" rfl
  · have hthr : pyInStr throttlePhrase throttlePhrase = true := by decide
    exact (c1_retry_failure_classification "SC" _).2.1 (fun _ => throttlePhrase)
      (fun i _ => ⟨rfl, hthr⟩)

/-- C3: if the upstream throttles on the first two calls and succeeds on
the third, fetch-with-retry with maxRetries 3 returns the post after
exactly two sleeps whose durations are the 1-based attempt index times
the 60-unit base, hence strictly increasing. -/
theorem c3_two_throttles_then_success
    (sc : String) (up : String → Nat → UpstreamResult) (p : Post)
    (m0 m1 : String)
    (h0 : up sc 0 = .badResponse m0) (t0 : pyInStr throttlePhrase m0 = true)
    (h1 : up sc 1 = .badResponse m1) (t1 : pyInStr throttlePhrase m1 = true)
    (h2 : up sc 2 = .ok p) :
    get_post_with_retry sc up 3 = (.success p, ⟨3, [60 * 1, 60 * 2]⟩)
    ∧ 60 * 1 < 60 * 2 := by
  constructor
  · simp [get_post_with_retry, retryGo, h0, t0, h1, t1, h2]
  · decide

/-- Closed instance of C3 at a concrete oracle. -/
theorem c3_two_throttles_then_success_witness :
    get_post_with_retry "SC"
        (fun _ n => if n < 2 then .badResponse throttlePhrase else .ok dummyPost)
        3 =
      (.success dummyPost, ⟨3, [60 * 1, 60 * 2]⟩)
    ∧ 60 * 1 < 60 * 2 :=
  c3_two_throttles_then_success "SC" _ dummyPost throttlePhrase throttlePhrase
    rfl (by decide) rfl (by decide) rfl

/-- C8: the /health handler returns HTTP 200 with its status body for
every session state (identity present, empty, or absent); it cannot
fail. -/
theorem c8_health_always_200 (identity : Option String) :
    health identity = (200, ⟨"ok", identity⟩) := rfl

/-- C10: when the live session check is falsy, both endpoints fail with
HTTP 500 and the session detail immediately: zero upstream calls, zero
sleeps, and — for /download_post — the filesystem is unchanged, so no
temporary directory is created. -/
theorem c10_session_gate_first
    (env : Env) (uuid url : String) (fs0 : FS)
    (h : truthyStrOpt env.identity = false) :
    post_info env url = (.httpExc 500 sessionDetail, ⟨0, []⟩)
    ∧ download_post env uuid url fs0 =
      (.httpExc 500 sessionDetail, fs0, ⟨0, []⟩) := by
  constructor <;> simp [post_info, download_post, h]

/-- Closed instance of C10 with an absent session identity. -/
theorem c10_session_gate_first_witness :
    post_info ⟨none, fun _ _ => .ok dummyPost, [], none⟩ "https://x/p/A/" =
      (.httpExc 500 sessionDetail, ⟨0, []⟩)
    ∧ download_post ⟨none, fun _ _ => .ok dummyPost, [], none⟩ "u"
        "https://x/p/A/" [["tmp", "other"]] =
      (.httpExc 500 sessionDetail, [["tmp", "other"]], ⟨0, []⟩) :=
  c10_session_gate_first ⟨none, fun _ _ => .ok dummyPost, [], none⟩ "u"
    "https://x/p/A/" [["tmp", "other"]] rfl

/-- C2: whenever the /download_post handler gets past the session gate
and the extractor (the only paths that create the per-request temporary
directory), no path at or under that temporary directory exists in the
final filesystem, whichever branch produced the result (single file,
zip, no-media error, fetch error, or download error). -/
theorem c2_tmpdir_deleted (env : Env) (uuid url : String) (fs0 : FS)
    (sc : String)
    (hl : truthyStrOpt env.identity = true)
    (hs : shortcode_from_url url = .ok sc) :
    ((download_post env uuid url fs0).2.1.all
      (fun p => !pathUnder ["tmp", "ig-" ++ uuid] p)) = true := by
  rcases hdb : downloadBody env sc ["tmp", "ig-" ++ uuid]
      (fs0 ++ [["tmp", "ig-" ++ uuid]]) with ⟨res, fs2, tr⟩
  simp only [download_post, hl, hs, Bool.true_eq_false, if_false, hdb]
  simp [rmtree, List.all_eq_true, List.mem_filter]

/-- Closed instance of C2: a two-file carousel download leaves nothing
under the temporary directory behind. -/
theorem c2_tmpdir_deleted_witness :
    ((download_post
        ⟨some "grupocrasto", fun _ _ => .ok dummyPost, ["0.jpg", "1.mp4"],
          none⟩ "u9" "https://www.instagram.com/p/SC9/" []).2.1.all
      (fun p => !pathUnder ["tmp", "ig-" ++ "u9"] p)) = true :=
  c2_tmpdir_deleted
    ⟨some "grupocrasto", fun _ _ => .ok dummyPost, ["0.jpg", "1.mp4"], none⟩
    "u9" "https://www.instagram.com/p/SC9/" [] "SC9" rfl rfl

/-- C7 (amended): when materialization finds exactly one matching media
file, the MIME type of the single-file response follows the source's
chain — mp4 to video/mp4, jpg and jpeg to image/jpeg, png to image/png,
and everything else (webp included, since the source has no webp
branch) to application/octet-stream. -/
theorem c7_single_file_mime (e : String)
    (he : e ∈ [".mp4", ".jpg", ".jpeg", ".png", ".webp"]) (p : Post) :
    (download_post ⟨some "grupocrasto", fun _ _ => .ok p, ["media" ++ e],
        none⟩ "u1" "https://www.instagram.com/p/SC1/" []).1 =
      .response (.fileBytes ["tmp", "ig-u1", "SC1", "media" ++ e])
        (if e == ".mp4" then "video/mp4"
          else if e == ".jpg" || e == ".jpeg" then "image/jpeg"
          else if e == ".png" then "image/png"
          else "application/octet-stream")
        ("media" ++ e) := by
  fin_cases he <;> rfl

/-- Closed instance of the amended C7 at a png file. -/
theorem c7_single_file_mime_witness :
    (download_post ⟨some "grupocrasto", fun _ _ => .ok dummyPost,
        ["media" ++ ".png"], none⟩ "u1"
        "https://www.instagram.com/p/SC1/" []).1 =
      .response (.fileBytes ["tmp", "ig-u1", "SC1", "media" ++ ".png"])
        "image/png" ("media" ++ ".png") :=
  c7_single_file_mime ".png" (by decide) dummyPost

/-- C7 (counterexample to the claimed webp mapping): a single webp file
is returned with MIME type application/octet-stream, not image/webp —
the source's MIME chain has no webp branch. -/
theorem c7_webp_gets_octet_stream :
    (download_post ⟨some "grupocrasto", fun _ _ => .ok dummyPost,
        ["media.webp"], none⟩ "u1" "https://www.instagram.com/p/SC1/" []).1 =
      .response (.fileBytes ["tmp", "ig-u1", "SC1", "media.webp"])
        "application/octet-stream" "media.webp"
    ∧ "application/octet-stream" ≠ "image/webp" :=
  ⟨rfl, by decide⟩

/-- If nothing in `pre` is a direct child of `t` and no downloaded name
has an allowed extension, the media scan over the constructed filesystem
is empty. -/
theorem scan_filter_empty (t : FsPath) (pre : FS) (names : List String)
    (hpre : ∀ p ∈ pre, isDirectChild t p = false)
    (h : ∀ n ∈ names, suffixAllowed n = false) :
    ((pre ++ names.map (fun n => t ++ [n])).filter
      (isDirectChild t)).filter isMediaFile = [] := by
  have h1 : pre.filter (isDirectChild t) = [] := by
    refine List.filter_eq_nil_iff.mpr ?_
    intro a ha
    simp [hpre a ha]
  have h2 : (names.map (fun n => t ++ [n])).filter (isDirectChild t) =
      names.map (fun n => t ++ [n]) := by
    refine List.filter_eq_self.mpr ?_
    intro a ha
    obtain ⟨n, _, rfl⟩ := List.mem_map.mp ha
    simp [isDirectChild_append_singleton t n]
  rw [List.filter_append, h1, h2, List.nil_append]
  refine List.filter_eq_nil_iff.mpr ?_
  intro a ha
  obtain ⟨n, hn, rfl⟩ := List.mem_map.mp ha
  simp [isMediaFile, lastComponent, List.getLast?_concat, h n hn]

/-- C9: when the post downloads successfully but none of the files in
the target directory carries an allowed media extension, the handler
fails with HTTP 500 and the no-media detail instead of returning an
empty success. -/
theorem c9_no_media_500 (names : List String) (p : Post)
    (h : ∀ n ∈ names, suffixAllowed n = false) :
    (download_post ⟨some "grupocrasto", fun _ _ => .ok p, names, none⟩ "u2"
        "https://www.instagram.com/p/SC2/" []).1 =
      .httpExc 500 noMediaDetail := by
  have hfetch : get_post_with_retry "SC2" (fun _ _ => UpstreamResult.ok p) 3 =
      (.success p, ⟨1, []⟩) := rfl
  have hbody : (downloadBody ⟨some "grupocrasto", fun _ _ => .ok p, names,
      none⟩ "SC2" ["tmp", "ig-u2"] [["tmp", "ig-u2"]]).1 =
      .httpExc 500 noMediaDetail := by
    have hscan := scan_filter_empty ["tmp", "ig-u2", "SC2"]
      [["tmp", "ig-u2"], ["tmp", "ig-u2", "SC2"]] names (by decide) h
    simp only [downloadBody, hfetch, iterdir]
    simp only [List.cons_append, List.nil_append, List.append_assoc,
      List.singleton_append] at hscan ⊢
    rw [hscan]
  have hsc : shortcode_from_url "https://www.instagram.com/p/SC2/" =
      .ok "SC2" := rfl
  have hl : truthyStrOpt (some "grupocrasto") = true := rfl
  simp [download_post, hsc, hl, hbody]

/-- Closed instance of C9: a download producing only a text file yields
the no-media HTTP 500. -/
theorem c9_no_media_500_witness :
    (download_post ⟨some "grupocrasto", fun _ _ => .ok dummyPost,
        ["notes.txt"], none⟩ "u2" "https://www.instagram.com/p/SC2/" []).1 =
      .httpExc 500 noMediaDetail :=
  c9_no_media_500 ["notes.txt"] dummyPost (by decide)

/-- C5 (counterexample to the stated mapping): with a loaded session,
POST /post_info on the empty URL does not produce an HTTP 400 — the
extractor's `IndexError` escapes the handler uncaught. -/
theorem c5_empty_url_not_400 :
    (post_info ⟨some "grupocrasto", fun _ _ => .ok dummyPost, [], none⟩ "").1 =
      .uncaught .indexError
    ∧ piStatus (post_info ⟨some "grupocrasto", fun _ _ => .ok dummyPost, [],
        none⟩ "").1 ≠ some 400 := by
  constructor
  · rfl
  · decide

/-- C5 (amended): for every URL with no non-empty path segment before
the query string, extraction raises `IndexError`; both POST endpoints
call the extractor outside their `try` blocks, so the exception escapes
the handler uncaught (the framework's generic error, not a mapped 400),
with no upstream call, no sleep, and no filesystem change. -/
theorem c5_no_segment_uncaught
    (env : Env) (uuid url : String) (fs0 : FS)
    (hl : truthyStrOpt env.identity = true)
    (h : ∀ a ∈ (splitOnChar '?' url.data).headD [], a = '/') :
    shortcode_from_url url = .error .indexError
    ∧ post_info env url = (.uncaught .indexError, ⟨0, []⟩)
    ∧ download_post env uuid url fs0 = (.uncaught .indexError, fs0, ⟨0, []⟩) := by
  have hsc : shortcode_from_url url = .error .indexError := by
    have hp := partsOf_all_sep _ h
    show (match (partsOf ((splitOnChar '?' url.data).headD [])).getLast? with
      | some s => Except.ok (String.mk s)
      | none => Except.error PyErr.indexError) = _
    rw [hp]
    rfl
  refine ⟨hsc, ?_, ?_⟩ <;> simp [post_info, download_post, hl, hsc]

/-- Closed instance of the amended C5 on the empty URL, a bare slash
URL, and a bare query URL. -/
theorem c5_no_segment_uncaught_witness :
    shortcode_from_url "" = .error .indexError
    ∧ post_info ⟨some "grupocrasto", fun _ _ => .ok dummyPost, [], none⟩ "" =
      (.uncaught .indexError, ⟨0, []⟩)
    ∧ download_post ⟨some "grupocrasto", fun _ _ => .ok dummyPost, [], none⟩
        "u" "" [] = (.uncaught .indexError, [], ⟨0, []⟩) :=
  c5_no_segment_uncaught ⟨some "grupocrasto", fun _ _ => .ok dummyPost, [],
    none⟩ "u" "" [] rfl (by decide)

/-- C4: extraction of `https://host/p/code/` and of
`https://host/reel/code/?q=x` yields exactly `code`, for every host and
code that are nonempty and free of `/` and `?`. -/
theorem c4_extraction_yields_code (host code : String)
    (hh : host.data ≠ []) (hhs : '/' ∉ host.data) (hhq : '?' ∉ host.data)
    (hc : code.data ≠ []) (hcs : '/' ∉ code.data) (hcq : '?' ∉ code.data) :
    shortcode_from_url ("https://" ++ host ++ "/p/" ++ code ++ "/") = .ok code
    ∧ shortcode_from_url ("https://" ++ host ++ "/reel/" ++ code ++ "/?q=x") =
      .ok code := by
  constructor
  · have hdata : ("https://" ++ host ++ "/p/" ++ code ++ "/").data =
        ['h', 't', 't', 'p', 's', ':'] ++ '/' :: '/' ::
          (host.data ++ '/' :: (['p'] ++ '/' :: (code.data ++ ['/']))) := by
      show ('h' :: 't' :: 't' :: 'p' :: 's' :: ':' :: '/' :: '/' ::
        (((host.data ++ ('/' :: 'p' :: '/' :: [])) ++ code.data) ++ ['/'])) = _
      simp [List.append_assoc]
    have hqfree : '?' ∉ ("https://" ++ host ++ "/p/" ++ code ++ "/").data := by
      rw [hdata]
      simp [List.mem_append, hhq, hcq]
    have hq : ∀ a ∈ ("https://" ++ host ++ "/p/" ++ code ++ "/").data,
        (!(a == '?')) = true := by
      intro a ha
      have : a ≠ '?' := fun e => hqfree (e ▸ ha)
      simpa using this
    rw [shortcode_from_url_no_query _ hq]
    have hp : partsOf ("https://" ++ host ++ "/p/" ++ code ++ "/").data =
        [['h', 't', 't', 'p', 's', ':'], host.data, ['p'], code.data] := by
      rw [hdata, partsOf_seg _ _ (by simp) (by decide), partsOf_cons_sep,
        partsOf_seg _ _ hh hhs, partsOf_seg _ _ (by simp) (by decide),
        partsOf_seg _ _ hc hcs]
      rfl
    rw [hp]
    rfl
  · have hdata : ("https://" ++ host ++ "/reel/" ++ code ++ "/?q=x").data =
        (['h', 't', 't', 'p', 's', ':'] ++ '/' :: '/' ::
          (host.data ++ '/' ::
            (['r', 'e', 'e', 'l'] ++ '/' :: (code.data ++ ['/'])))) ++
          '?' :: ['q', '=', 'x'] := by
      show ('h' :: 't' :: 't' :: 'p' :: 's' :: ':' :: '/' :: '/' ::
        (((host.data ++ ('/' :: 'r' :: 'e' :: 'e' :: 'l' :: '/' :: [])) ++
          code.data) ++ ('/' :: '?' :: 'q' :: '=' :: 'x' :: []))) = _
      simp [List.append_assoc]
    have hqfree : '?' ∉ ['h', 't', 't', 'p', 's', ':'] ++ '/' :: '/' ::
        (host.data ++ '/' ::
          (['r', 'e', 'e', 'l'] ++ '/' :: (code.data ++ ['/']))) := by
      simp [List.mem_append, hhq, hcq]
    have hq : ∀ a ∈ ['h', 't', 't', 'p', 's', ':'] ++ '/' :: '/' ::
        (host.data ++ '/' ::
          (['r', 'e', 'e', 'l'] ++ '/' :: (code.data ++ ['/']))),
        (!(a == '?')) = true := by
      intro a ha
      have hne : a ≠ '?' := fun e => hqfree (e ▸ ha)
      simpa using hne
    rw [shortcode_from_url_query_split _ _ _ hdata hq]
    have hp : partsOf (['h', 't', 't', 'p', 's', ':'] ++ '/' :: '/' ::
        (host.data ++ '/' ::
          (['r', 'e', 'e', 'l'] ++ '/' :: (code.data ++ ['/'])))) =
        [['h', 't', 't', 'p', 's', ':'], host.data, ['r', 'e', 'e', 'l'],
          code.data] := by
      rw [partsOf_seg _ _ (by simp) (by decide), partsOf_cons_sep,
        partsOf_seg _ _ hh hhs, partsOf_seg _ _ (by simp) (by decide),
        partsOf_seg _ _ hc hcs]
      rfl
    rw [hp]
    rfl

/-- Closed instance of C4 at a concrete host and shortcode. -/
theorem c4_extraction_yields_code_witness :
    shortcode_from_url
        ("https://" ++ "www.instagram.com" ++ "/p/" ++ "Abc123" ++ "/") =
      .ok "Abc123"
    ∧ shortcode_from_url
        ("https://" ++ "www.instagram.com" ++ "/reel/" ++ "Abc123" ++
          "/?q=x") = .ok "Abc123" :=
  c4_extraction_yields_code "www.instagram.com" "Abc123" (by decide)
    (by decide) (by decide) (by decide) (by decide) (by decide)

/-- C6 (failing input): the extractor returns the literal path marker
itself when the URL ends at the marker — `.../p/` yields shortcode
`"p"`, contradicting the spec's rule that a marker is never the chosen
segment. -/
theorem c6_marker_returned_as_shortcode :
    shortcode_from_url "https://www.instagram.com/p/" = .ok "p"
    ∧ shortcode_from_url "https://www.instagram.com/tv/" = .ok "tv"
    ∧ shortcode_from_url "https://www.instagram.com/reel/" = .ok "reel" :=
  ⟨rfl, rfl, rfl⟩
